import Mathlib

/-!
Shallow embedding of the AgenticAI frontend session controller: the
irrigation-advice page (fetchAgent, startRecording, stopRecording) and the
home page (sendToBackend, startRecording, stopRecording).  JavaScript numbers
are modelled as Rat (NaN and infinities are out of scope), JavaScript
truthiness-based defaulting (`x || d`) is modelled explicitly (0 and "" are
falsy), and the two `String.prototype.match` regular expressions of the
fallback extraction are modelled by faithful backtracking matchers
(leftmost match, lazy and greedy groups, `.` excluding line terminators).
-/

namespace Agentic

/-! JS truthiness-based defaulting: `x || d` where x is an optionally-present
    string or number.  An absent value, the empty string and 0 are falsy. -/

def jsOrStr (x : Option String) (d : String) : String :=
  match x with
  | some s => if s = "" then d else s
  | none => d

def jsOrRat (x : Option Rat) (d : Rat) : Rat :=
  match x with
  | some v => if v = 0 then d else v
  | none => d

/-! Raw backend payload (the JSON response), after the TS type AgentResponse
    in the irrigation page, extended with the redirect keys the home page
    reads.  Every key is optional, mirroring the optional fields. -/

structure RawLocation where
  name : Option String
deriving DecidableEq

structure RawCondition where
  text : Option String
deriving DecidableEq

structure RawCurrent where
  condition : Option RawCondition
  temp_c : Option Rat
deriving DecidableEq

structure RawWeather where
  location : Option RawLocation
  current : Option RawCurrent
deriving DecidableEq

structure RawSoil where
  moisture : Option Rat
  ph : Option Rat
  nitrogen : Option String
  phosphorus : Option String
  potassium : Option String
deriving DecidableEq

structure RawResponse where
  message : Option String
  audio_url : Option String
  weather : Option RawWeather
  soil : Option RawSoil
  redirect : Option Bool
  redirect_url : Option String
deriving DecidableEq

/-- Optional chaining `data.weather.location?.name`. -/
def RawWeather.locName (w : RawWeather) : Option String :=
  match w.location with
  | some loc => loc.name
  | none => none

/-- Optional chaining `data.weather.current?.condition?.text`. -/
def RawWeather.condText (w : RawWeather) : Option String :=
  match w.current with
  | some cur =>
    match cur.condition with
    | some cond => cond.text
    | none => none
  | none => none

/-- Optional chaining `data.weather.current?.temp_c`. -/
def RawWeather.tempC (w : RawWeather) : Option Rat :=
  match w.current with
  | some cur => cur.temp_c
  | none => none

/-! Normalized (UI-facing) model, after the TS types Weather and Soil of the
    irrigation page.  `temp_c` there has type `number | string`: the
    structured path stores a number, the text-fallback path stores the raw
    captured substring. -/

inductive TempVal where
  | num (q : Rat)
  | str (s : String)
deriving DecidableEq

structure Weather where
  location : String
  condition : String
  temp_c : TempVal
deriving DecidableEq

structure Soil where
  moisture : Rat
  ph : Option Rat
  nitrogen : Option String
  phosphorus : Option String
  potassium : Option String
deriving DecidableEq

/-! Backtracking matcher for
    `/Weather in (.*?) is (.*) with temperature ([0-9.]+)°C/`
    with JavaScript semantics: leftmost starting position, group 1 lazy
    (shortest first), group 2 greedy (longest first), group 3 greedy over
    the class [0-9.], `.` matching anything but a line terminator. -/

def isDotChar (c : Char) : Bool :=
  !(c = '\n' || c = '\r' || c = '\u2028' || c = '\u2029')

def isNumDot (c : Char) : Bool :=
  c.isDigit || c = '.'

def weatherLit : List Char := "Weather in ".toList
def isLit : List Char := " is ".toList
def witLit : List Char := " with temperature ".toList
def degCLit : List Char := "°C".toList
def soilLit : List Char := "soil moisture ".toList

/-- Attempt the literal tail `" with temperature " ([0-9.]+) "°C"` at the
    current position: group 2 ends here.  Returns (group2-here = [], group3). -/
def tryWT (l : List Char) : Option (List Char × List Char) :=
  if witLit.isPrefixOf l then
    let rest := l.drop witLit.length
    let ds := rest.takeWhile isNumDot
    if ds.length > 0 && degCLit.isPrefixOf (rest.drop ds.length) then
      some ([], ds)
    else none
  else none

/-- Greedy `(.*)` before the literal tail: prefer consuming the next
    character into group 2; fall back to placing the literal here. -/
def matchTail : List Char → Option (List Char × List Char)
  | [] => tryWT []
  | c :: rest =>
    (if isDotChar c then (matchTail rest).map (fun p => (c :: p.1, p.2)) else none)
    <|> tryWT (c :: rest)

/-- Attempt the literal `" is "` at the current position (group 1 ends here),
    then the greedy remainder. -/
def tryIs (l : List Char) : Option (List Char × List Char × List Char) :=
  if isLit.isPrefixOf l then
    (matchTail (l.drop isLit.length)).map (fun p => (([] : List Char), p.1, p.2))
  else none

/-- Lazy `(.*?)` before `" is "`: prefer the shortest group 1, extending it
    one (non-terminator) character at a time on failure. -/
def matchFromIs : List Char → Option (List Char × List Char × List Char)
  | [] => tryIs []
  | c :: rest =>
    tryIs (c :: rest)
    <|> (if isDotChar c then (matchFromIs rest).map (fun t => (c :: t.1, t.2.1, t.2.2)) else none)

def weatherAttempt (l : List Char) : Option (List Char × List Char × List Char) :=
  if weatherLit.isPrefixOf l then matchFromIs (l.drop weatherLit.length) else none

/-- Leftmost starting position for the whole pattern. -/
def weatherMatchCore : List Char → Option (List Char × List Char × List Char)
  | [] => weatherAttempt []
  | c :: rest => weatherAttempt (c :: rest) <|> weatherMatchCore rest

/-- `message.match(/Weather in (.*?) is (.*) with temperature ([0-9.]+)°C/)`:
    the three capture groups, or none when the pattern does not occur. -/
def weatherMatch (msg : String) : Option (String × String × String) :=
  (weatherMatchCore msg.toList).map
    (fun t => (String.mk t.1, String.mk t.2.1, String.mk t.2.2))

/-- Decimal value of a digit string, as `Number` on the captured group. -/
def digitsToNat (ds : List Char) : Nat :=
  ds.foldl (fun acc c => 10 * acc + (c.toNat - 48)) 0

/-- Attempt `soil moisture (\d+)%` at the current position: the literal, a
    maximal nonempty digit run, then a percent sign. -/
def soilAttempt (l : List Char) : Option Nat :=
  if soilLit.isPrefixOf l then
    let rest := l.drop soilLit.length
    let ds := rest.takeWhile Char.isDigit
    if ds.length > 0 && (rest.drop ds.length).take 1 = ['%'] then
      some (digitsToNat ds)
    else none
  else none

/-- `message.match(/soil moisture (\d+)%/)`: the captured digits as a number
    (leftmost occurrence), or none. -/
def soilMatchCore : List Char → Option Nat
  | [] => soilAttempt []
  | c :: rest => soilAttempt (c :: rest) <|> soilMatchCore rest

def soilMatch (msg : String) : Option Nat :=
  soilMatchCore msg.toList

/-! The normalizer inside fetchAgent (irrigation page, lines 70-104). -/

/-- Structured weather branch (lines 72-76): each subfield read through
    optional chaining and defaulted with `||`. -/
def structuredWeather (w : RawWeather) : Weather :=
  { location := jsOrStr w.locName "Unknown"
  , condition := jsOrStr w.condText "N/A"
  , temp_c := TempVal.num (jsOrRat w.tempC 0) }

/-- Structured soil branch (lines 92-98): every subfield defaulted with `||`. -/
def structuredSoil (s : RawSoil) : Soil :=
  { moisture := jsOrRat s.moisture 0
  , ph := some (jsOrRat s.ph 7)
  , nitrogen := some (jsOrStr s.nitrogen "medium")
  , phosphorus := some (jsOrStr s.phosphorus "medium")
  , potassium := some (jsOrStr s.potassium "medium") }

/-- Weather normalization: structured branch if `data.weather` is present,
    otherwise (guarded by `else if (data.message)`, so only for a truthy
    message) the text-pattern fallback, which stores the captured temperature
    substring uncoerced. -/
def normalizeWeather (data : RawResponse) : Option Weather :=
  match data.weather with
  | some w => some (structuredWeather w)
  | none =>
    match data.message with
    | some msg =>
      if msg = "" then none
      else
        match weatherMatch msg with
        | some g => some { location := g.1, condition := g.2.1, temp_c := TempVal.str g.2.2 }
        | none => none
    | none => none

/-- Soil normalization: structured branch if `data.soil` is present, otherwise
    the text-pattern fallback, which sets only `moisture`
    (`setSoil(\x7b moisture: Number(soilMatch[1]) \x7d)`): the remaining
    fields stay absent. -/
def normalizeSoil (data : RawResponse) : Option Soil :=
  match data.soil with
  | some s => some (structuredSoil s)
  | none =>
    match data.message with
    | some msg =>
      if msg = "" then none
      else
        match soilMatch msg with
        | some n =>
          some { moisture := (n : Rat), ph := none, nitrogen := none
               , phosphorus := none, potassium := none }
        | none => none
    | none => none

/-! Irrigation-advice page state and the fetchAgent handler. -/

/-- The NormalizedResponse-bearing UI state of the irrigation page:
    agentText, weather and soil (loading is omitted: it is set true on entry
    and false in the finally block, with no net effect). -/
structure PageState where
  agentText : String
  weather : Option Weather
  soil : Option Soil
deriving DecidableEq

/-- State after lines 55-57: setAgentText(""), setWeather(null), setSoil(null),
    executed before the request is issued. -/
def clearedState : PageState :=
  { agentText := "", weather := none, soil := none }

/-- Outcome of the POST to the /agent endpoint. -/
inductive FetchOutcome where
  | ok (data : RawResponse)
  | serverError (status : Nat)
  | transportError
deriving DecidableEq

/-- Outcome of an attempted `audio.play()` on the runtime. -/
inductive PlaybackOutcome where
  | completed
  | startedNeverEnded
  | blocked
deriving DecidableEq

def backendOrigin : String :=
  "https://backend-agenticai-production.up.railway.app"

/-- Everything observable about one fetchAgent invocation: the resulting UI
    state, the status carried by a thrown `Server error` (caught in the same
    handler), whether the generic failure alert was shown, the audio URL
    handed to playback (if any), and the navigations performed. -/
structure FetchAgentResult where
  state : PageState
  raisedStatus : Option Nat
  alerted : Bool
  audioPlayed : Option String
  navigations : List String
deriving DecidableEq

/-- fetchAgent (irrigation page, lines 53-122).  The handler first clears
    agentText/weather/soil, discarding prevState; a non-ok response throws
    `Server error: status`, which the handler's own catch turns into the
    generic alert, leaving the cleared state in place.  On success the
    normalized fields are installed and, when audio_url is truthy, playback
    of the origin-resolved URL is attempted; a playback failure is swallowed
    by the inner catch, so no component of the result depends on the
    playback outcome, and this page never invokes the router. -/
def fetchAgent (prevState : PageState) (o : FetchOutcome) (pb : PlaybackOutcome) :
    FetchAgentResult :=
  match o with
  | FetchOutcome.serverError status =>
    { state := clearedState, raisedStatus := some status, alerted := true
    , audioPlayed := none, navigations := [] }
  | FetchOutcome.transportError =>
    { state := clearedState, raisedStatus := none, alerted := true
    , audioPlayed := none, navigations := [] }
  | FetchOutcome.ok data =>
    { state :=
        { agentText := jsOrStr data.message ""
        , weather := normalizeWeather data
        , soil := normalizeSoil data }
    , raisedStatus := none
    , alerted := false
    , audioPlayed :=
        match data.audio_url with
        | some a => if a = "" then none else some (String.append backendOrigin a)
        | none => none
    , navigations := [] }

/-! Home page: sendToBackend with the redirect continuation. -/

/-- `data.redirect && data.redirect_url`: the redirect target when both are
    truthy (redirect = true and redirect_url nonempty). -/
def redirectTarget (data : RawResponse) : Option String :=
  match data.redirect, data.redirect_url with
  | some true, some url => if url = "" then none else some url
  | _, _ => none

/-- Observable result of one sendToBackend invocation on the home page. -/
structure HomeResult where
  agentText : String
  navigations : List String
  alerted : Bool
deriving DecidableEq

/-- sendToBackend (home page, lines 17-67).  On a non-ok response or
    transport failure the catch alerts and the previously displayed
    agentText is untouched (it is only set on success).  On success: if
    audio_url is truthy, playback is attempted; on rejection the failure is
    logged and the redirect (if wired) fires in the catch; on success the
    redirect fires from the onended handler, which is installed only after
    play() resolves, so it fires once when playback ends and never if the
    end event never arrives.  With a falsy audio_url the redirect fires
    immediately. -/
def sendToBackend (prevText : String) (o : FetchOutcome) (pb : PlaybackOutcome) :
    HomeResult :=
  match o with
  | FetchOutcome.serverError _ =>
    { agentText := prevText, navigations := [], alerted := true }
  | FetchOutcome.transportError =>
    { agentText := prevText, navigations := [], alerted := true }
  | FetchOutcome.ok data =>
    let text := jsOrStr data.message ""
    let nav := (redirectTarget data).toList
    match data.audio_url with
    | some a =>
      if a = "" then { agentText := text, navigations := nav, alerted := false }
      else
        match pb with
        | PlaybackOutcome.completed =>
          { agentText := text, navigations := nav, alerted := false }
        | PlaybackOutcome.startedNeverEnded =>
          { agentText := text, navigations := [], alerted := false }
        | PlaybackOutcome.blocked =>
          { agentText := text, navigations := nav, alerted := false }
    | none => { agentText := text, navigations := nav, alerted := false }

/-! Recording controller (identical shape on both pages): the React
    `recording` flag, the recorder held in mediaRecorderRef (none before
    the first session), and the chunk buffer audioChunksRef. -/

/-- State of the MediaRecorder held in the ref. -/
inductive RecState where
  | inactive
  | recording
deriving DecidableEq

/-- One captured chunk, as its byte payload (`e.data`); `e.data.size` is its
    length. -/
abbrev Chunk := List Nat

structure ControllerState where
  recording : Bool
  mediaRecorder : Option RecState
  chunks : List Chunk
deriving DecidableEq

/-- The ondataavailable handler: append the chunk iff `e.data.size > 0`. -/
def onDataAvailable (buf : List Chunk) (c : Chunk) : List Chunk :=
  if c.length > 0 then buf ++ [c] else buf

/-- Deliver a sequence of chunk events to the buffer, in arrival order. -/
def runCapture : List Chunk → List Chunk → List Chunk
  | buf, [] => buf
  | buf, c :: cs => runCapture (onDataAvailable buf c) cs

/-- The buffer accumulated during one session, which starts empty. -/
def sessionBuffer (arrivals : List Chunk) : List Chunk :=
  runCapture [] arrivals

/-- The onstop finalizer's `new Blob(audioChunksRef.current)`: the
    concatenation of the buffered chunks, in buffer order. -/
def finalizeBlob (buf : List Chunk) : List Nat :=
  buf.flatten

/-- startRecording (both pages).  There is no guard on the recording flag:
    with microphone access granted it installs a fresh started recorder,
    resets the chunk buffer to empty and sets recording = true, whatever the
    previous state was; on MicAccessError the catch alerts and the state is
    untouched. -/
def startRecording (s : ControllerState) (micGranted : Bool) : ControllerState :=
  if micGranted then
    { recording := true, mediaRecorder := some RecState.recording, chunks := [] }
  else s

/-- stopRecording (both pages).  Guarded by the ref being non-null; calls
    recorder.stop() — a no-op when the recorder is already inactive, per the
    MediaRecorder specification, so onstop does not fire again — and sets
    recording = false.  The second component is the submission produced by
    the onstop finalizer: the concatenated blob when an active recorder was
    stopped, none otherwise. -/
def stopRecording (s : ControllerState) : ControllerState × Option (List Nat) :=
  match s.mediaRecorder with
  | none => (s, none)
  | some RecState.inactive => ({ s with recording := false }, none)
  | some RecState.recording =>
    ({ s with recording := false, mediaRecorder := some RecState.inactive },
     some (finalizeBlob s.chunks))

/-- Idle: no recording is active — the flag is down and the recorder in the
    ref (if any) is inactive. -/
def ControllerState.isIdle (s : ControllerState) : Prop :=
  s.recording = false ∧ s.mediaRecorder ≠ some RecState.recording

instance (s : ControllerState) : Decidable s.isIdle := by
  unfold ControllerState.isIdle; infer_instance

/-! Helper lemma for the capture buffer. -/

theorem runCapture_append (cs : List Chunk) :
    ∀ buf, runCapture buf cs = buf ++ runCapture [] cs := by
  induction cs with
  | nil => intro buf; simp [runCapture]
  | cons c cs ih =>
    intro buf
    show runCapture (onDataAvailable buf c) cs = buf ++ runCapture (onDataAvailable [] c) cs
    rw [ih (onDataAvailable buf c), ih (onDataAvailable [] c)]
    by_cases h : c.length > 0 <;> simp [onDataAvailable, h]

/-! Concrete payloads used by the claims. -/

def rawC7 : RawResponse :=
  { message := some "Weather in Pune is Clear with temperature 30.5°C"
  , audio_url := none, weather := none, soil := none
  , redirect := none, redirect_url := none }

def rawC2 : RawResponse :=
  { message := some "Field has soil moisture 42%"
  , audio_url := none, weather := none, soil := none
  , redirect := none, redirect_url := none }

/-! Claim theorems. -/

/-- C7: with no weather object and message
    "Weather in Pune is Clear with temperature 30.5°C", normalization yields
    location "Pune", condition "Clear" and the temperature exactly as
    captured from the text — the uncoerced substring "30.5". -/
theorem C7_weather_text_fallback :
    normalizeWeather rawC7 =
      some { location := "Pune", condition := "Clear", temp_c := TempVal.str "30.5" } := by
  decide

/-- C2 counterexample: on message "Field has soil moisture 42%" with no soil
    object, the fallback Soil has moisture 42 but leaves ph and the NPK
    levels absent; it is not the claimed Soil with ph = 7 and all levels
    "medium". -/
theorem C2_fallback_soil_counterexample :
    normalizeSoil rawC2 =
      some { moisture := 42, ph := none, nitrogen := none
           , phosphorus := none, potassium := none } ∧
    normalizeSoil rawC2 ≠
      some { moisture := 42, ph := some 7, nitrogen := some "medium"
           , phosphorus := some "medium", potassium := some "medium" } := by
  decide

/-- C2 (amended): for every response with no soil object whose message
    matches `soil moisture <digits>%`, normalization produces a Soil whose
    moisture equals the captured digits and whose remaining fields are left
    absent — the structured defaults (ph = 7, NPK "medium") are not applied
    on the fallback path. -/
theorem C2_fallback_soil_amended (data : RawResponse) (msg : String) (n : Nat)
    (hs : data.soil = none) (hm : data.message = some msg)
    (hmatch : soilMatch msg = some n) :
    normalizeSoil data =
      some { moisture := (n : Rat), ph := none, nitrogen := none
           , phosphorus := none, potassium := none } := by
  have hne : msg ≠ "" := by
    intro h
    rw [h] at hmatch
    have h0 : soilMatch "" = none := rfl
    exact Option.noConfusion (h0.symm.trans hmatch)
  simp [normalizeSoil, hs, hm, hne, hmatch]

/-- C2 witness: the amended statement applied at the concrete payload. -/
theorem C2_witness :
    normalizeSoil rawC2 =
      some { moisture := ((42 : Nat) : Rat), ph := none, nitrogen := none
           , phosphorus := none, potassium := none } :=
  C2_fallback_soil_amended rawC2 "Field has soil moisture 42%" 42 rfl rfl (by decide)

def rawC6bad : RawResponse :=
  { message := none, audio_url := none
  , weather := some { location := some { name := some "" }, current := none }
  , soil := none, redirect := none, redirect_url := none }

/-- C6 counterexample: a weather object whose location.name is present but
    equal to "" normalizes to location "Unknown", not to the provided value
    "" — the `||` defaulting also replaces present-but-falsy subfields, so a
    default can appear even when the subfield is not absent. -/
theorem C6_structured_weather_counterexample :
    normalizeWeather rawC6bad =
      some { location := "Unknown", condition := "N/A", temp_c := TempVal.num 0 } ∧
    normalizeWeather rawC6bad ≠
      some { location := "", condition := "N/A", temp_c := TempVal.num 0 } := by
  decide

/-- C6 (amended): for every RawResponse with a present weather object,
    normalization yields the structured extraction in which each subfield is
    defaulted independently, the default applying when the subfield is
    absent or falsy: a present nonempty location.name or condition.text is
    used verbatim, an absent or empty one becomes "Unknown" / "N/A", and a
    present temp_c is always preserved (0 coincides with the default 0),
    with 0 when absent. -/
theorem C6_structured_weather_amended (data : RawResponse) (w : RawWeather)
    (hw : data.weather = some w) :
    normalizeWeather data = some (structuredWeather w) ∧
    (∀ s, w.locName = some s → s ≠ "" → (structuredWeather w).location = s) ∧
    (w.locName = none ∨ w.locName = some "" → (structuredWeather w).location = "Unknown") ∧
    (∀ s, w.condText = some s → s ≠ "" → (structuredWeather w).condition = s) ∧
    (w.condText = none ∨ w.condText = some "" → (structuredWeather w).condition = "N/A") ∧
    (∀ q, w.tempC = some q → (structuredWeather w).temp_c = TempVal.num q) ∧
    (w.tempC = none → (structuredWeather w).temp_c = TempVal.num 0) := by
  refine ⟨by simp [normalizeWeather, hw], ?_, ?_, ?_, ?_, ?_, ?_⟩
  · intro s hs hne; simp [structuredWeather, jsOrStr, hs, hne]
  · rintro (h | h) <;> simp [structuredWeather, jsOrStr, h]
  · intro s hs hne; simp [structuredWeather, jsOrStr, hs, hne]
  · rintro (h | h) <;> simp [structuredWeather, jsOrStr, h]
  · intro q hq
    by_cases h0 : q = 0
    · subst h0; simp [structuredWeather, jsOrRat, hq]
    · simp [structuredWeather, jsOrRat, hq, h0]
  · intro h; simp [structuredWeather, jsOrRat, h]

def rawW6 : RawWeather :=
  { location := some { name := some "Pune" }, current := none }

def rawC6 : RawResponse :=
  { message := none, audio_url := none, weather := some rawW6, soil := none
  , redirect := none, redirect_url := none }

/-- C6 witness: the amended statement at a weather object with a present
    nonempty location.name and absent condition and temperature. -/
theorem C6_witness :
    normalizeWeather rawC6 = some (structuredWeather rawW6) ∧
    (∀ s, rawW6.locName = some s → s ≠ "" → (structuredWeather rawW6).location = s) ∧
    (rawW6.locName = none ∨ rawW6.locName = some "" →
      (structuredWeather rawW6).location = "Unknown") ∧
    (∀ s, rawW6.condText = some s → s ≠ "" → (structuredWeather rawW6).condition = s) ∧
    (rawW6.condText = none ∨ rawW6.condText = some "" →
      (structuredWeather rawW6).condition = "N/A") ∧
    (∀ q, rawW6.tempC = some q → (structuredWeather rawW6).temp_c = TempVal.num q) ∧
    (rawW6.tempC = none → (structuredWeather rawW6).temp_c = TempVal.num 0) :=
  C6_structured_weather_amended rawC6 rawW6 rfl

/-- C1: when a structured weather or soil object is present alongside a
    message in which the corresponding text pattern also matches, the
    normalized field is exactly the structured extraction, and the message
    is never consulted for it (removing the message leaves the field
    unchanged) — structured data always wins, and the result never mixes a
    structured-sourced and a fallback-extracted value for the same field. -/
theorem C1_structured_wins (data : RawResponse) (msg : String)
    (hm : data.message = some msg) :
    (∀ w, data.weather = some w → (weatherMatch msg).isSome →
       normalizeWeather data = some (structuredWeather w) ∧
       normalizeWeather { data with message := none } = normalizeWeather data) ∧
    (∀ s, data.soil = some s → (soilMatch msg).isSome →
       normalizeSoil data = some (structuredSoil s) ∧
       normalizeSoil { data with message := none } = normalizeSoil data) := by
  obtain ⟨m, au, wf, sf, rd, ru⟩ := data
  constructor
  · intro w hw _
    simp only at hw
    subst hw
    exact ⟨rfl, rfl⟩
  · intro s hs _
    simp only at hs
    subst hs
    exact ⟨rfl, rfl⟩

def msgC1 : String :=
  "Weather in Pune is Clear with temperature 30.5°C and soil moisture 42%"

def rawW1 : RawWeather :=
  { location := some { name := some "Lahore" }
  , current := some { condition := some { text := some "Sunny" }, temp_c := some 25 } }

def rawS1 : RawSoil :=
  { moisture := some 55, ph := some 6, nitrogen := some "high"
  , phosphorus := none, potassium := some "low" }

def rawC1 : RawResponse :=
  { message := some msgC1, audio_url := none
  , weather := some rawW1, soil := some rawS1
  , redirect := none, redirect_url := none }

set_option maxRecDepth 8000 in
/-- C1 witness: a payload whose message matches both text patterns while
    both structured objects are present; normalization takes the structured
    values. -/
theorem C1_witness :
    normalizeWeather rawC1 = some (structuredWeather rawW1) ∧
    normalizeSoil rawC1 = some (structuredSoil rawS1) :=
  ⟨((C1_structured_wins rawC1 msgC1 rfl).1 rawW1 rfl (by decide)).1,
   ((C1_structured_wins rawC1 msgC1 rfl).2 rawS1 rfl (by decide)).1⟩

def prevC3 : PageState :=
  { agentText := "old advice"
  , weather := some { location := "Pune", condition := "Clear", temp_c := TempVal.num 30 }
  , soil := some { moisture := 40, ph := some 7, nitrogen := some "medium"
                 , phosphorus := some "medium", potassium := some "medium" } }

/-- C3 counterexample: a 500 response raises the status, but the previously
    displayed message, weather and soil are not left untouched — fetchAgent
    cleared them before issuing the request, so every one of them differs
    from its prior value after the failed submission. -/
theorem C3_server_error_counterexample :
    (fetchAgent prevC3 (FetchOutcome.serverError 500) PlaybackOutcome.completed).raisedStatus
        = some 500 ∧
    (fetchAgent prevC3 (FetchOutcome.serverError 500) PlaybackOutcome.completed).state.weather
        ≠ prevC3.weather ∧
    (fetchAgent prevC3 (FetchOutcome.serverError 500) PlaybackOutcome.completed).state.soil
        ≠ prevC3.soil ∧
    (fetchAgent prevC3 (FetchOutcome.serverError 500) PlaybackOutcome.completed).state.agentText
        ≠ prevC3.agentText := by
  decide

/-- C3 (amended): for every submission whose response has a non-2xx status,
    fetchAgent raises an error carrying that numeric status (surfaced to the
    user as the generic alert), performs no navigation and no playback, and
    leaves the message/weather/soil state at the cleared values it installed
    when the submission began — no field from the failed response is
    applied, but the previously displayed state is wiped rather than
    preserved. -/
theorem C3_server_error_amended (prevState : PageState) (status : Nat)
    (pb : PlaybackOutcome) :
    fetchAgent prevState (FetchOutcome.serverError status) pb =
      { state := clearedState, raisedStatus := some status, alerted := true
      , audioPlayed := none, navigations := [] } := rfl

/-- C4: from any Idle controller state — the initial one with an empty ref,
    or the one left behind by a completed session, whose ref still holds the
    now-inactive recorder — stopRecording changes nothing and produces no
    submission: recorder.stop() on an inactive recorder is a no-op that
    fires no onstop, and setRecording(false) rewrites the already-false
    flag. -/
theorem C4_stop_idle_noop (s : ControllerState) (h : s.isIdle) :
    stopRecording s = (s, none) := by
  obtain ⟨h1, h2⟩ := h
  obtain ⟨r, m, ch⟩ := s
  cases m with
  | none => rfl
  | some rs =>
    cases rs with
    | inactive =>
      have hr : r = false := h1
      subst hr
      rfl
    | recording => exact absurd rfl h2

def idleAfterSession : ControllerState :=
  { recording := false, mediaRecorder := some RecState.inactive, chunks := [[5, 6]] }

/-- C4 witness: the Idle state left behind by a completed session. -/
theorem C4_witness :
    stopRecording idleAfterSession = (idleAfterSession, none) :=
  C4_stop_idle_noop idleAfterSession (by decide)

def recordingWithChunks : ControllerState :=
  { recording := true, mediaRecorder := some RecState.recording, chunks := [[1, 2]] }

/-- C5 counterexample: startRecording invoked in a Recording state with a
    non-empty chunk buffer empties the buffer — the claim that the buffer is
    left unchanged fails. -/
theorem C5_start_while_recording_counterexample :
    (startRecording recordingWithChunks true).chunks = [] ∧
    recordingWithChunks.chunks ≠ [] := by
  decide

/-- C5 (amended): startRecording carries no guard on the Recording state:
    invoked while Recording with microphone access granted, it resets the
    chunk buffer to empty and installs a fresh active recorder, keeping
    recording = true; only the UI prevents this, by not rendering the start
    control while a recording is active. -/
theorem C5_start_while_recording_amended (s : ControllerState)
    (h : s.recording = true) :
    startRecording s true =
      { recording := true, mediaRecorder := some RecState.recording, chunks := [] } := rfl

/-- C5 witness: the amended statement at a Recording state with a non-empty
    buffer. -/
theorem C5_witness :
    startRecording recordingWithChunks true =
      { recording := true, mediaRecorder := some RecState.recording, chunks := [] } :=
  C5_start_while_recording_amended recordingWithChunks rfl

/-- C8: on the home page, when the response carries a truthy audio_url, a
    truthy redirect and a non-empty redirect_url and playback is blocked,
    the failure is swallowed (no user-facing alert) and the navigation to
    the redirect target still fires, exactly once. -/
theorem C8_blocked_playback_redirect (prevText : String) (data : RawResponse)
    (a url : String)
    (ha : data.audio_url = some a) (hane : a ≠ "")
    (hr : data.redirect = some true) (hu : data.redirect_url = some url)
    (hune : url ≠ "") :
    (sendToBackend prevText (FetchOutcome.ok data) PlaybackOutcome.blocked).navigations
        = [url] ∧
    (sendToBackend prevText (FetchOutcome.ok data) PlaybackOutcome.blocked).alerted
        = false := by
  simp [sendToBackend, ha, hane, redirectTarget, hr, hu, hune]

def rawC8 : RawResponse :=
  { message := some "welcome", audio_url := some "/audio/welcome.mp3"
  , weather := none, soil := none
  , redirect := some true, redirect_url := some "/books" }

/-- C8 witness: blocked playback on a payload with audio and redirect. -/
theorem C8_witness :
    (sendToBackend "prev" (FetchOutcome.ok rawC8) PlaybackOutcome.blocked).navigations
        = ["/books"] ∧
    (sendToBackend "prev" (FetchOutcome.ok rawC8) PlaybackOutcome.blocked).alerted
        = false :=
  C8_blocked_playback_redirect "prev" rawC8 "/audio/welcome.mp3" "/books"
    rfl (by decide) rfl rfl (by decide)

/-- C9: during one recording session every captured chunk (chunk events
    carry data, so their size is positive) is appended to the session buffer
    in arrival order, and stopping the active recorder finalizes the
    artifact as the concatenation of exactly those chunks in that order —
    none dropped, including the empty partial capture. -/
theorem C9_chunk_order_preserved (arrivals : List Chunk)
    (h : ∀ c ∈ arrivals, 0 < c.length) :
    sessionBuffer arrivals = arrivals ∧
    (stopRecording
      { recording := true, mediaRecorder := some RecState.recording
      , chunks := sessionBuffer arrivals }).2 = some arrivals.flatten := by
  have hb : ∀ l : List Chunk, (∀ c ∈ l, 0 < c.length) → sessionBuffer l = l := by
    intro l
    induction l with
    | nil => intro _; rfl
    | cons c cs ih =>
      intro hl
      have hc : 0 < c.length := hl c (List.mem_cons_self c cs)
      have ih2 := ih (fun x hx => hl x (List.mem_cons_of_mem c hx))
      show runCapture (onDataAvailable [] c) cs = c :: cs
      rw [runCapture_append cs (onDataAvailable [] c),
          show onDataAvailable [] c = [c] from by simp [onDataAvailable, hc],
          show runCapture [] cs = cs from ih2]
      rfl
  have hb2 := hb arrivals h
  refine ⟨hb2, ?_⟩
  show some (finalizeBlob (sessionBuffer arrivals)) = some arrivals.flatten
  rw [hb2]
  rfl

/-- C9 witness: a two-chunk session. -/
theorem C9_witness :
    sessionBuffer [[1, 2], [3]] = [[1, 2], [3]] ∧
    (stopRecording
      { recording := true, mediaRecorder := some RecState.recording
      , chunks := sessionBuffer [[1, 2], [3]] }).2 = some (List.flatten [[1, 2], [3]]) :=
  C9_chunk_order_preserved [[1, 2], [3]] (by decide)

/-- C10: on the irrigation-advice page the navigation continuation never
    fires — for every successful response, including one with a truthy
    redirect and non-empty redirect_url, fetchAgent performs no navigation;
    the redirect fields are never read on this surface. -/
theorem C10_no_redirect_on_advice_page (prevState : PageState) (data : RawResponse)
    (pb : PlaybackOutcome) (url : String)
    (hr : data.redirect = some true) (hu : data.redirect_url = some url)
    (hune : url ≠ "") :
    (fetchAgent prevState (FetchOutcome.ok data) pb).navigations = [] := rfl

def rawC10 : RawResponse :=
  { message := some "advice", audio_url := some "/audio/a.mp3"
  , weather := none, soil := none
  , redirect := some true, redirect_url := some "/books" }

/-- C10 witness: a payload with both redirect fields set still produces no
    navigation on the irrigation-advice page. -/
theorem C10_witness :
    (fetchAgent clearedState (FetchOutcome.ok rawC10) PlaybackOutcome.completed).navigations
        = [] :=
  C10_no_redirect_on_advice_page clearedState rawC10 PlaybackOutcome.completed "/books"
    rfl rfl (by decide)

end Agentic
